import Mathlib

/-!
Verification of the reconciliation/orchestration engine of the code-backup
daemon (`code_backup_daemon`).  The Python sources are shallowly embedded:

* `FolderWatcher.is_valid_project` and `should_ignore_folder`
  (folder_watcher.py, generated by `script_5.py`) become pure functions over
  an abstract `Folder` snapshot of a directory;
* `Config.get_path_config` (config.py) becomes a recursion over the ordered
  list of watched-path configurations;
* `BackupService` (backup_service.py) becomes a family of pure functions
  over a `Registry` (the `tracked_repos` dict, as an insertion-ordered
  association list) and an `Env` record abstracting the external
  collaborators (git, GitHub, filesystem, clock) exactly as §6 of the
  design treats them: opaque capabilities answering boolean/optional
  queries.  Side effects that the claims talk about (remote creation,
  git init, backup attempts, state persistence) are collected in an
  explicit event list.

Timestamps are natural numbers (`datetime.now()` becomes `Env.now`).
-/

namespace CodeBackup

/-- Status values stored in a tracked-repository record
(`status` field of `tracked_repos` entries in backup_service.py). -/
inductive RepoStatus
  | tracked
  | synced
  | no_changes
  | failed
  | missing
  | error
  deriving DecidableEq, Repr

/-- One tracked-repository record, mirroring the dict literal built in
`_process_existing_git_repo` / `_add_remote_to_existing_repo` /
`_initialize_new_repository` plus the fields added later by the sweep
(`last_check`, `last_error`). -/
structure RepoInfo where
  name : String
  path : String
  created_at : Nat
  last_backup : Option Nat := none
  last_check : Option Nat := none
  backup_count : Nat := 0
  status : RepoStatus
  has_remote : Bool := true
  remote_url : String := ""
  account_username : String := "unknown"
  last_error : Option String := none
  deriving DecidableEq, Repr

/-- The account block of a watched-path configuration entry. -/
structure AccountConfig where
  username : String
  deriving DecidableEq, Repr

/-- One entry of the `watched_paths` configuration list: a filesystem root
plus the owning account.  Paths are taken already expanded/resolved. -/
structure PathConfig where
  path : String
  account : AccountConfig
  deriving DecidableEq, Repr

/-- The `tracked_repos` dict: an insertion-ordered association list from
folder path to record (Python dicts preserve insertion order). -/
abbrev Registry := List (String × RepoInfo)

/-- Dict membership lookup (`folder_str in self.tracked_repos`). -/
def lookupRepo (reg : Registry) (p : String) : Option RepoInfo :=
  (reg.find? (fun e => e.1 == p)).map (·.2)

/-- `Path(...).name`: the basename of a path string. -/
def folderName (p : String) : String :=
  (p.splitOn "/").getLast!

/-- Does the second character list begin with the first? -/
def charsLead : List Char → List Char → Bool
  | [], _ => true
  | _ :: _, [] => false
  | a :: as, b :: bs => a == b && charsLead as bs

/-- Python `s.startswith(pat)` as a character-level test. -/
def strStartsWith (s pat : String) : Bool :=
  charsLead pat.data s.data

/-- Python `s.endswith(pat)` as a character-level test. -/
def strEndsWith (s pat : String) : Bool :=
  charsLead pat.data.reverse s.data.reverse

/-- External collaborators (git service, GitHub service, filesystem, clock,
operator preferences), as the capability contracts of §6 of the design:
each is an opaque total query.  `now` stands for `datetime.now()`. -/
structure Env where
  now : Nat
  is_git_repo : String → Bool
  has_remote : String → Bool
  get_remote_url : String → String
  init_repo_ok : String → Bool
  create_repository_ok : String → Bool
  delete_repository_ok : String → String → Bool
  rmtree_ok : String → Bool
  pathExists : String → Bool
  is_dir : String → Bool
  has_uncommitted_changes : String → Bool
  sync_ok : String → Bool
  project_enabled : String → Bool
  is_authenticated : String → Bool
  last_commit_time : String → Option Nat
  commit_count : String → Option Nat
  is_valid_project : String → Bool
  listDir : String → List String
  ignore_patterns : List String

/-- Observable side effects of the orchestrator, used to state the
"no remote-creation attempt" / "backup performed" parts of the claims. -/
inductive Ev
  | createRemote (name : String)
  | initRepo (path : String)
  | backupAttempt (path : String)
  | syncCall (path : String)
  | setGitConfig (path : String)
  | deleteRemote (name : String)
  | rmtree (path : String)
  | saveState
  | scanAll
  | startWatcher (path : String)
  | startLoop
  deriving DecidableEq, Repr

/-- Result dict of `_backup_repository`. -/
structure BackupResult where
  success : Bool
  changes_pushed : Bool
  message : String
  deriving DecidableEq, Repr

/-- `BackupService._backup_repository`: check for uncommitted changes,
sync (commit + pull + push) when there are some, and report what
happened.  The event list records that a backup attempt ran and whether
the git sync capability was invoked. -/
def backup_repository_single (env : Env) (p : String) : BackupResult × List Ev :=
  if !(env.has_uncommitted_changes p) then
    ({ success := true, changes_pushed := false, message := "No changes to backup" },
     [Ev.backupAttempt p])
  else
    let ok := env.sync_ok p
    ({ success := ok, changes_pushed := ok,
       message := if ok then "Pushed to GitHub" else "Push failed" },
     [Ev.backupAttempt p, Ev.syncCall p])

/-- `BackupService._add_remote_to_existing_repo`: set the per-repo git
identity, create the GitHub repository, and on success insert a `synced`
record with `backup_count = 1`; on failure leave the registry unchanged. -/
def add_remote_to_existing_repo (env : Env) (reg : Registry) (pc : PathConfig)
    (p : String) : Bool × Registry × List Ev :=
  let evs := [Ev.setGitConfig p, Ev.createRemote (folderName p)]
  if env.create_repository_ok p then
    let info : RepoInfo :=
      { name := folderName p, path := p, created_at := env.now,
        last_backup := some env.now, backup_count := 1, status := RepoStatus.synced,
        has_remote := true, remote_url := env.get_remote_url p,
        account_username := pc.account.username }
    (true, reg ++ [(p, info)], evs)
  else
    (false, reg, evs)

/-- `BackupService._initialize_new_repository`: `git init` with the
account identity, create the GitHub repository, and on success insert a
`synced` record with `backup_count = 1`; any failure leaves the registry
unchanged. -/
def initialize_new_repository (env : Env) (reg : Registry) (pc : PathConfig)
    (p : String) : Bool × Registry × List Ev :=
  if !(env.init_repo_ok p) then
    (false, reg, [Ev.initRepo p])
  else
    let evs := [Ev.initRepo p, Ev.createRemote (folderName p)]
    if env.create_repository_ok p then
      let info : RepoInfo :=
        { name := folderName p, path := p, created_at := env.now,
          last_backup := some env.now, backup_count := 1, status := RepoStatus.synced,
          has_remote := true, remote_url := env.get_remote_url p,
          account_username := pc.account.username }
      (true, reg ++ [(p, info)], evs)
    else
      (false, reg, evs)

/-- `BackupService._process_existing_git_repo`: a git repo with a remote
is registered as `tracked` with `backup_count = 0`, followed by an
immediate backup unless this is the initial scan; a git repo without a
remote goes through `add_remote_to_existing_repo`. -/
def process_existing_git_repo (env : Env) (reg : Registry) (pc : PathConfig)
    (is_initial_scan : Bool) (p : String) : Bool × Registry × List Ev :=
  if env.has_remote p then
    let info : RepoInfo :=
      { name := folderName p, path := p, created_at := env.now,
        last_backup := none, backup_count := 0, status := RepoStatus.tracked,
        has_remote := true, remote_url := env.get_remote_url p,
        account_username := pc.account.username }
    let evs := if is_initial_scan then [] else (backup_repository_single env p).2
    (true, reg ++ [(p, info)], evs)
  else
    add_remote_to_existing_repo env reg pc p

/-- `BackupService._process_non_git_folder`: a non-git folder is tracked
only if the project validator accepts it. -/
def process_non_git_folder (env : Env) (reg : Registry) (pc : PathConfig)
    (p : String) : Bool × Registry × List Ev :=
  if !(env.is_valid_project p) then
    (false, reg, [])
  else
    initialize_new_repository env reg pc p

/-- `BackupService.process_folder`: the per-folder reconciliation
primitive.  An already-tracked path returns success immediately with no
state change and no external action. -/
def process_folder (env : Env) (reg : Registry) (pc : PathConfig)
    (is_initial_scan : Bool) (p : String) : Bool × Registry × List Ev :=
  if (lookupRepo reg p).isSome then
    (true, reg, [])
  else if env.is_git_repo p then
    process_existing_git_repo env reg pc is_initial_scan p
  else
    process_non_git_folder env reg pc p

/-- Per-pass counters of `backup_all_repositories`. -/
structure SweepCounts where
  successful : Nat := 0
  failed : Nat := 0
  skipped : Nat := 0
  deriving DecidableEq, Repr

/-- Pointwise sum of sweep counters. -/
def countsAdd (a b : SweepCounts) : SweepCounts :=
  { successful := a.successful + b.successful,
    failed := a.failed + b.failed,
    skipped := a.skipped + b.skipped }

/-- The per-entry body of the `backup_all_repositories` loop: how one
registry entry is rewritten by a sweep pass.  A repo disabled by operator
preference is skipped before anything else happens to its record — in
particular before `last_check` would be written. -/
def sweep_entry (env : Env) (e : String × RepoInfo) : String × RepoInfo :=
  if !(env.project_enabled e.2.name) then
    e
  else if !(env.pathExists e.1) then
    (e.1, { e.2 with status := RepoStatus.missing })
  else
    let res := (backup_repository_single env e.1).1
    let info1 := { e.2 with last_check := some env.now }
    if res.success && res.changes_pushed then
      (e.1, { info1 with last_backup := some env.now,
                         backup_count := e.2.backup_count + 1,
                         status := RepoStatus.synced })
    else if res.success then
      (e.1, { info1 with status := RepoStatus.no_changes })
    else
      (e.1, { info1 with status := RepoStatus.failed,
                         last_error := some res.message })

/-- The counter contribution of one entry in a sweep pass. -/
def sweep_tally (env : Env) (e : String × RepoInfo) : SweepCounts :=
  if !(env.project_enabled e.2.name) then
    { skipped := 1 }
  else if !(env.pathExists e.1) then
    {}
  else
    let res := (backup_repository_single env e.1).1
    if res.success && res.changes_pushed then
      { successful := 1 }
    else if res.success then
      { skipped := 1 }
    else
      { failed := 1 }

/-- The external actions taken for one entry in a sweep pass: nothing for
a disabled or missing repo, otherwise the backup attempt. -/
def sweep_events (env : Env) (e : String × RepoInfo) : List Ev :=
  if !(env.project_enabled e.2.name) then
    []
  else if !(env.pathExists e.1) then
    []
  else
    (backup_repository_single env e.1).2

/-- `BackupService.backup_all_repositories`: one sweep pass.  Each entry
is rewritten independently by the loop body, counters are accumulated,
and the state is persisted once at the end (the early return on an empty
registry skips even that). -/
def backup_all_repositories (env : Env) (reg : Registry) :
    Registry × SweepCounts × List Ev :=
  if reg.isEmpty then
    (reg, {}, [])
  else
    (reg.map (sweep_entry env),
     reg.foldl (fun acc e => countsAdd acc (sweep_tally env e)) {},
     (reg.foldr (fun e acc => sweep_events env e ++ acc) []) ++ [Ev.saveState])

/-- Replace the (first) entry with the given key. -/
def replace_entry : Registry → String → RepoInfo → Registry
  | [], _, _ => []
  | e :: rest, p, info =>
    if e.1 == p then (p, info) :: rest else e :: replace_entry rest p info

/-- `BackupService.backup_repository` (public, by name): find the first
record matching by name or basename, back it up, update its record, and
persist. -/
def backup_repository (env : Env) (reg : Registry) (n : String) :
    Bool × Registry × List Ev :=
  match reg.find? (fun e => e.2.name == n || folderName e.1 == n) with
  | none => (false, reg, [])
  | some e =>
    if !(env.pathExists e.1) then
      (false, reg, [])
    else
      let res := (backup_repository_single env e.1).1
      let info1 := { e.2 with last_check := some env.now }
      let info2 :=
        if res.success && res.changes_pushed then
          { info1 with last_backup := some env.now,
                       backup_count := e.2.backup_count + 1,
                       status := RepoStatus.synced }
        else if res.success then
          { info1 with status := RepoStatus.no_changes }
        else
          { info1 with status := RepoStatus.failed, last_error := some res.message }
      (res.success, replace_entry reg e.1 info2,
       (backup_repository_single env e.1).2 ++ [Ev.saveState])

/-- What `force_backup` returns: `False` when the name is unknown,
the raw `_backup_repository` result dict in the by-name branch (the
Python code returns the dict itself from a `-> bool` function), and
`True` after a force of all repositories. -/
inductive ForceReturn
  | notFound
  | resultDict (r : BackupResult)
  | allDone
  deriving DecidableEq, Repr

/-- `BackupService.force_backup`: by name, it runs `_backup_repository`
on the first record with that name and returns its result without
touching the record; with no name, it delegates to
`backup_all_repositories`. -/
def force_backup (env : Env) (reg : Registry) (n? : Option String) :
    ForceReturn × Registry × List Ev :=
  match n? with
  | some n =>
    match reg.find? (fun e => e.2.name == n) with
    | some e =>
      (ForceReturn.resultDict (backup_repository_single env e.1).1, reg,
       (backup_repository_single env e.1).2)
    | none => (ForceReturn.notFound, reg, [])
  | none =>
    let r := backup_all_repositories env reg
    (ForceReturn.allDone, r.1, r.2.2)

/-- The `backup_count` half of the registry-load repair: overwrite the
stored count whenever the actual commit count is readable and
disagrees. -/
def migrate_count_fix (c? : Option Nat) (info : RepoInfo) : RepoInfo × Bool :=
  match c? with
  | some c =>
    if info.backup_count ≠ c then ({ info with backup_count := c }, true)
    else (info, false)
  | none => (info, false)

/-- The `last_backup` half of the repair: a stored timestamp newer than
the actual last commit is corrupted and pulled back; a missing one is
set. -/
def migrate_time_fix (t : Nat) (info : RepoInfo) : RepoInfo × Bool :=
  match info.last_backup with
  | some lb =>
    if t < lb then ({ info with last_backup := some t }, true)
    else (info, false)
  | none => ({ info with last_backup := some t }, true)

/-- The per-entry body of `BackupService._migrate_backup_timestamps`:
returns the repaired record together with the `updated` contribution of
this entry.  A record whose folder is gone, or whose last-commit query
fails, is left alone. -/
def migrate_entry (env : Env) (e : String × RepoInfo) : (String × RepoInfo) × Bool :=
  if !(env.pathExists e.1) then
    (e, false)
  else
    match env.last_commit_time e.1 with
    | none => (e, false)
    | some t =>
      let cf := migrate_count_fix (env.commit_count e.1) e.2
      let tf := migrate_time_fix t cf.1
      ((e.1, tf.1), cf.2 || tf.2)

/-- `BackupService._migrate_backup_timestamps`: repair every entry and
persist the registry exactly once if (and only if) anything changed. -/
def migrate_backup_timestamps (env : Env) (reg : Registry) : Registry × List Ev :=
  let reg' := reg.map (fun e => (migrate_entry env e).1)
  let updated := reg.any (fun e => (migrate_entry env e).2)
  (reg', if updated then [Ev.saveState] else [])

/-- `Config.get_path_config`: walk the `watched_paths` list in
configuration order and return the first entry whose (resolved) root is a
string prefix of the (resolved) repository path. -/
def get_path_config : List PathConfig → String → Option PathConfig
  | [], _ => none
  | pc :: rest, p =>
    if strStartsWith p pc.path then some pc else get_path_config rest p

/-- `BackupService._verify_all_accounts`: every watched path's account
must authenticate. -/
def verify_all_accounts (env : Env) (wps : List PathConfig) : Bool :=
  wps.all (fun pc => env.is_authenticated pc.account.username)

/-- `Config.validate`: at least one watched path, and each root must
exist and be a directory (the field-presence checks are captured by the
`PathConfig` type itself). -/
def config_validate (env : Env) (wps : List PathConfig) : Bool :=
  !wps.isEmpty && wps.all (fun pc => env.pathExists pc.path && env.is_dir pc.path)

/-- Did the needle occur as a substring of the haystack
(Python's `pat in s`)? -/
def occursIn (pat s : String) : Bool :=
  pat == "" || (s.splitOn pat).length > 1

/-- `FolderWatcher.should_ignore_folder`: ignore a folder whose lowered
name contains a configured ignore pattern, a hidden folder, or one of the
fixed transient names. -/
def should_ignore_folder (ignore_patterns : List String) (name : String) : Bool :=
  ignore_patterns.any (fun pat => occursIn pat name.toLower)
  || strStartsWith name "."
  || ["tmp", "temp", "cache", "logs", "log",
      "backup", "backups", "trash", "recycle"].contains name.toLower

/-- The body of the inner loop of `BackupService.initial_scan_all` for
one watched root: process every immediate subdirectory that is not
ignored, threading the registry through. -/
def scan_root (env : Env) (pc : PathConfig) (reg : Registry) : Registry :=
  if !(env.pathExists pc.path) then
    reg
  else
    (env.listDir pc.path).foldl
      (fun r item =>
        if env.is_dir item && !(should_ignore_folder env.ignore_patterns (folderName item)) then
          (process_folder env r pc true item).2.1
        else r)
      reg

/-- `BackupService.initial_scan_all`. -/
def initial_scan_all (env : Env) (wps : List PathConfig) (reg : Registry) : Registry :=
  wps.foldl (fun r pc => scan_root env pc r) reg

/-- The externally visible service state toggled by `start`/`stop`. -/
structure ServiceState where
  tracked_repos : Registry
  is_running : Bool
  watched_paths : List PathConfig
  deriving Repr

/-- `BackupService.start`: refuse to start when already running, when the
configuration is invalid, or when any account fails authentication; in
each refusal nothing happens — no running flag, no initial scan, no
watchers, no backup loop.  Otherwise flip the flag, run the initial scan,
start one watcher per watched path and the backup loop. -/
def start (env : Env) (st : ServiceState) : ServiceState × List Ev :=
  if st.is_running then
    (st, [])
  else if !(config_validate env st.watched_paths) then
    (st, [])
  else if !(verify_all_accounts env st.watched_paths) then
    (st, [])
  else
    let reg' := initial_scan_all env st.watched_paths st.tracked_repos
    ({ st with is_running := true, tracked_repos := reg' },
     [Ev.scanAll]
       ++ st.watched_paths.map (fun pc => Ev.startWatcher pc.path)
       ++ [Ev.startLoop])

/-- `BackupService.remove_repository`: drop the first record with the
given name; report whether one was found. -/
def remove_repository : Registry → String → Bool × Registry
  | [], _ => (false, [])
  | e :: rest, n =>
    if e.2.name == n then (true, rest)
    else
      let r := remove_repository rest n
      (r.1, e :: r.2)

/-- Result dict of `delete_repository_complete`. -/
structure DeleteResult where
  github_deleted : Bool := false
  local_deleted : Bool := false
  tracking_removed : Bool := false
  errors : List String := []
  deriving DecidableEq, Repr

/-- `BackupService.delete_repository_complete`: look the project up by
name; optionally delete the GitHub repository (resolving the account
configuration by the record's stored `account_username`), optionally
delete the local folder; each destructive step reports its own success
flag and appends its own error entry on failure; removal from tracking is
attempted last, unconditionally. -/
def delete_repository_complete (env : Env) (wps : List PathConfig) (reg : Registry)
    (n : String) (delete_github delete_local : Bool) :
    DeleteResult × Registry × List Ev :=
  match reg.find? (fun e => e.2.name == n) with
  | none => ({ errors := ["Repository not found: " ++ n] }, reg, [])
  | some e =>
    let account := e.2.account_username
    let gh :=
      if delete_github then
        match wps.find? (fun pc => pc.account.username == account) with
        | some _ =>
          let ok := env.delete_repository_ok n account
          ((ok, if ok then [] else ["Failed to delete from GitHub: " ++ n]),
           [Ev.deleteRemote n])
        | none => ((false, ["Account config not found for: " ++ account]), [])
      else ((false, []), [])
    let loc :=
      if delete_local then
        if env.pathExists e.1 then
          if env.rmtree_ok e.1 then ((true, ([] : List String)), [Ev.rmtree e.1])
          else ((false, ["Local deletion error: " ++ e.1]), [Ev.rmtree e.1])
        else ((false, []), [])
      else ((false, []), [])
    let trk := remove_repository reg n
    ({ github_deleted := gh.1.1, local_deleted := loc.1.1,
       tracking_removed := trk.1, errors := gh.1.2 ++ loc.1.2 },
     trk.2,
     gh.2 ++ loc.2 ++ (if trk.1 then [Ev.saveState] else []))

/-! ## Project validator (`FolderWatcher.is_valid_project`)

The validator inspects the filesystem; a folder is embedded as a `Folder`
snapshot: its immediate entries (files, and one level of subdirectories
with their immediate file names, which is all the probe looks at) and the
sizes of all files met by `rglob('*')` in traversal order (which is all
the size/count scan looks at).  The error fallback of the size scan is
outside this abstraction: the snapshot is assumed readable. -/

/-- One immediate child of the folder under validation. -/
inductive FsEntry
  | file (name : String)
  | dir (name : String) (files : List String)
  deriving DecidableEq, Repr

/-- Name of an immediate child. -/
def FsEntry.name : FsEntry → String
  | FsEntry.file n => n
  | FsEntry.dir n _ => n

/-- Snapshot of the folder a validation run looks at. -/
structure Folder where
  entries : List FsEntry
  rglobSizes : List Nat
  deriving Repr

/-- `(folder / n).exists()`: some immediate child has this name. -/
def entryNamed (f : Folder) (n : String) : Bool :=
  f.entries.any (fun e => e.name == n)

/-- The `project_detection` configuration block consumed by the
validator. -/
structure DetectionRules where
  min_size_bytes : Nat
  project_indicators : List String
  code_extensions : List String
  deriving Repr

/-- Does `glob('*' + ext)` match this name: non-hidden and ending with
the extension. -/
def globMatches (ext name : String) : Bool :=
  !(strStartsWith name ".") && strEndsWith name ext

/-- Top-level code-file probe: some configured extension matches some
immediate entry. -/
def hasCodeFilesTop (rules : DetectionRules) (f : Folder) : Bool :=
  rules.code_extensions.any (fun ext => f.entries.any (fun e => globMatches ext e.name))

/-- One-level subdirectory probe, run only when the top level had no code
files: a non-hidden immediate subdirectory contains a file matching one
of the first five configured extensions. -/
def subdirHasCode (rules : DetectionRules) : FsEntry → Bool
  | FsEntry.file _ => false
  | FsEntry.dir n files =>
    !(strStartsWith n ".")
      && (rules.code_extensions.take 5).any
           (fun ext => files.any (fun fn => globMatches ext fn))

/-- The size/count scan over `rglob('*')`: accumulate file sizes and the
file count, stopping once the running total exceeds the 100 MB cap. -/
def scanSizes (cap : Nat) : List Nat → Nat → Nat → Nat × Nat
  | [], total, count => (total, count)
  | s :: rest, total, count =>
    let t := total + s
    let c := count + 1
    if cap < t then (t, c) else scanSizes cap rest t c

/-- `FolderWatcher.is_valid_project`, minus logging: a git folder is
always valid; otherwise a project indicator file, or code files together
with either sufficient total size or at least three files, make it
valid. -/
def is_valid_project (rules : DetectionRules) (f : Folder) : Bool :=
  if entryNamed f ".git" then
    true
  else
    rules.project_indicators.any (fun ind => entryNamed f ind)
    || ((hasCodeFilesTop rules f || f.entries.any (subdirHasCode rules))
          && decide (rules.min_size_bytes ≤ (scanSizes (100 * 1024 * 1024) f.rglobSizes 0 0).1))
    || ((hasCodeFilesTop rules f || f.entries.any (subdirHasCode rules))
          && decide (3 ≤ (scanSizes (100 * 1024 * 1024) f.rglobSizes 0 0).2))

/-- The trackability predicate in the words of the claim (literal
reading): "(a) already under version control; (b) at least one project
indicator file; (c) source files by extension AND total size meets the
minimum, OR at least 3 files total."  Written only to be compared with
`is_valid_project`. -/
def claimed_trackable (rules : DetectionRules) (f : Folder) : Bool :=
  entryNamed f ".git"
  || rules.project_indicators.any (fun ind => entryNamed f ind)
  || ((hasCodeFilesTop rules f || f.entries.any (subdirHasCode rules))
        && decide (rules.min_size_bytes ≤ (scanSizes (100 * 1024 * 1024) f.rglobSizes 0 0).1))
  || decide (3 ≤ (scanSizes (100 * 1024 * 1024) f.rglobSizes 0 0).2)

/-- The trackability predicate with clause (c) amended so that the
three-file alternative also requires source files: "(c) source files by
extension AND (total size meets the minimum OR at least 3 files
total)."  Written only to be compared with `is_valid_project`. -/
def amended_trackable (rules : DetectionRules) (f : Folder) : Bool :=
  entryNamed f ".git"
  || rules.project_indicators.any (fun ind => entryNamed f ind)
  || ((hasCodeFilesTop rules f || f.entries.any (subdirHasCode rules))
        && (decide (rules.min_size_bytes ≤ (scanSizes (100 * 1024 * 1024) f.rglobSizes 0 0).1)
            || decide (3 ≤ (scanSizes (100 * 1024 * 1024) f.rglobSizes 0 0).2)))

/-- The `project_detection` defaults of `Config.DEFAULT_CONFIG`. -/
def defaultRules : DetectionRules :=
  { min_size_bytes := 1024,
    project_indicators :=
      ["package.json", "requirements.txt", "Cargo.toml",
       "go.mod", "pom.xml", "Gemfile", "composer.json",
       "setup.py", "pyproject.toml", "README.md", "Makefile"],
    code_extensions :=
      [".py", ".js", ".ts", ".jsx", ".tsx", ".java", ".cpp",
       ".c", ".h", ".go", ".rs", ".php", ".rb", ".swift",
       ".kt", ".cs", ".scala", ".clj", ".hs", ".elm"] }

/-! ## Concrete fixtures

Small concrete environments, registries and folders used to evaluate the
theorems at explicit inputs. -/

/-- A baseline environment: everything succeeds, nothing is a git repo,
no pending changes, empty filesystem listing. -/
def envBase : Env :=
  { now := 100,
    is_git_repo := fun _ => false,
    has_remote := fun _ => false,
    get_remote_url := fun p => "git@github.example:" ++ folderName p,
    init_repo_ok := fun _ => true,
    create_repository_ok := fun _ => true,
    delete_repository_ok := fun _ _ => true,
    rmtree_ok := fun _ => true,
    pathExists := fun _ => true,
    is_dir := fun _ => true,
    has_uncommitted_changes := fun _ => false,
    sync_ok := fun _ => true,
    project_enabled := fun _ => true,
    is_authenticated := fun _ => true,
    last_commit_time := fun _ => none,
    commit_count := fun _ => none,
    is_valid_project := fun _ => false,
    listDir := fun _ => [],
    ignore_patterns := [] }

/-- A tracked record for `/code/proj`, freshly registered: `tracked`,
never backed up, `last_check` never written. -/
def repoProj : RepoInfo :=
  { name := "proj", path := "/code/proj", created_at := 1,
    status := RepoStatus.tracked, remote_url := "git@github.example:proj",
    account_username := "alice" }

/-- A watched-path configuration for `/code` owned by `alice`. -/
def cfgCode : PathConfig := { path := "/code", account := { username := "alice" } }

/-- A watched-path configuration for `/code/foo` owned by `bob`
(overlapping `cfgCode`, listed second). -/
def cfgCodeFoo : PathConfig := { path := "/code/foo", account := { username := "bob" } }

/-- Environment where `/code/proj` has pending changes and the push
succeeds. -/
def envChanges : Env :=
  { envBase with has_uncommitted_changes := fun _ => true, sync_ok := fun _ => true }

/-- Environment where every project is disabled by operator preference
and the clock reads 5. -/
def envDisabled : Env :=
  { envBase with project_enabled := fun _ => false, now := 5 }

/-- Environment where `/code/proj` is an existing git repository with a
configured remote. -/
def envGitRemote : Env :=
  { envBase with is_git_repo := fun _ => true, has_remote := fun _ => true }

/-- Environment for the registry-load repair: the folder exists, its real
history has 3 commits, the last at time 40. -/
def envHistory : Env :=
  { envBase with last_commit_time := fun _ => some 40, commit_count := fun _ => some 3 }

/-- Environment in which no account can authenticate. -/
def envNoAuth : Env :=
  { envBase with is_authenticated := fun _ => false }

/-- A corrupted persisted record for `/code/proj`: `backup_count = 5`
and `last_backup = 90`, both later/larger than the real history. -/
def repoCorrupt : RepoInfo :=
  { repoProj with backup_count := 5, last_backup := some 90 }

/-- Registry holding only `/code/proj` as `repoProj`. -/
def regProj : Registry := [("/code/proj", repoProj)]

/-- Registry holding only `/code/proj` as `repoCorrupt`. -/
def regCorrupt : Registry := [("/code/proj", repoCorrupt)]

/-- A not-yet-running service over `/code` with an empty registry. -/
def stIdle : ServiceState :=
  { tracked_repos := [], is_running := false, watched_paths := [cfgCode] }

/-- Environment for the deletion scenario: the remote deletion fails. -/
def envDeleteFails : Env :=
  { envBase with delete_repository_ok := fun _ _ => false }

/-- A folder with three small plain-text files and nothing else: no
VCS metadata, no indicator file, no source file by extension. -/
def folderTexts : Folder :=
  { entries := [FsEntry.file "a.txt", FsEntry.file "b.txt", FsEntry.file "c.txt"],
    rglobSizes := [10, 10, 10] }

/-! ## Theorems -/

/-- C1: processing a folder path that is already present in the registry
is a no-op: the call returns success, the registry (and hence every
record in it, with no duplicate added) is unchanged, and no external
action — in particular no remote-creation attempt — is taken. -/
theorem c1_process_folder_idempotent (env : Env) (reg : Registry) (pc : PathConfig)
    (b : Bool) (p : String) (info : RepoInfo)
    (h : lookupRepo reg p = some info) :
    process_folder env reg pc b p = (true, reg, []) := by
  unfold process_folder
  rw [h]
  rfl

/-- Witness for C1: re-processing the already-tracked `/code/proj` leaves
the one-entry registry exactly as it was. -/
theorem c1_witness :
    lookupRepo regProj "/code/proj" = some repoProj ∧
    process_folder envBase regProj cfgCode true "/code/proj" = (true, regProj, []) :=
  ⟨by decide,
   c1_process_folder_idempotent envBase regProj cfgCode true "/code/proj" repoProj
     (by decide)⟩

/-- C2: first processing of a folder that is already a git repository
with a remote inserts a record with `status = tracked` and
`backup_count = 0`; with the initial-scan flag no backup runs, and
without it the backup primitive runs right after tracking. -/
theorem c2_existing_remote_repo (env : Env) (reg : Registry) (pc : PathConfig)
    (p : String)
    (h1 : lookupRepo reg p = none)
    (h2 : env.is_git_repo p = true)
    (h3 : env.has_remote p = true) :
    ∃ info : RepoInfo,
      (∀ b, process_folder env reg pc b p =
        (true, reg ++ [(p, info)],
         if b then [] else (backup_repository_single env p).2)) ∧
      info.status = RepoStatus.tracked ∧
      info.backup_count = 0 ∧
      info.last_backup = none ∧
      Ev.backupAttempt p ∈ (backup_repository_single env p).2 := by
  refine ⟨{ name := folderName p, path := p, created_at := env.now,
            last_backup := none, backup_count := 0, status := RepoStatus.tracked,
            has_remote := true, remote_url := env.get_remote_url p,
            account_username := pc.account.username }, ?_, rfl, rfl, rfl, ?_⟩
  · intro b
    unfold process_folder process_existing_git_repo
    rw [h1, h2, h3]
    simp
  · unfold backup_repository_single
    split <;> simp

/-- Witness for C2: `/code/proj` is a git repo with a remote; during the
initial scan it is registered as `tracked` with no backup, otherwise a
backup attempt follows. -/
theorem c2_witness :
    ∃ info : RepoInfo,
      (∀ b, process_folder envGitRemote [] cfgCode b "/code/proj" =
        (true, [("/code/proj", info)],
         if b then [] else (backup_repository_single envGitRemote "/code/proj").2)) ∧
      info.status = RepoStatus.tracked ∧
      info.backup_count = 0 ∧
      info.last_backup = none ∧
      Ev.backupAttempt "/code/proj" ∈ (backup_repository_single envGitRemote "/code/proj").2 :=
  c2_existing_remote_repo envGitRemote [] cfgCode "/code/proj" (by decide) (by decide)
    (by decide)

/-- C3 (counterexample): a force run targeted at a single repository
whose push succeeds does NOT increment `backup_count`, set `last_backup`
or move the status to `synced`: `/code/proj` is enabled, exists, has
pending changes and its push succeeds (the result dict reports a push and
the sync capability was invoked), yet the registry after the call is the
unchanged `regProj`, whose record still has `backup_count = 0`,
`last_backup = none` and `status = tracked`. -/
theorem c3_counterexample :
    (force_backup envChanges regProj (some "proj")).1 =
      ForceReturn.resultDict
        { success := true, changes_pushed := true, message := "Pushed to GitHub" } ∧
    Ev.syncCall "/code/proj" ∈ (force_backup envChanges regProj (some "proj")).2.2 ∧
    (force_backup envChanges regProj (some "proj")).2.1 = regProj ∧
    repoProj.backup_count = 0 ∧
    repoProj.last_backup = none ∧
    repoProj.status = RepoStatus.tracked := by
  refine ⟨by decide, by decide, by decide, rfl, rfl, rfl⟩

/-- C3 (amended): for an enabled tracked folder that exists and has
pending changes, a successful push during a sweep pass — and hence during
a force run over all repositories, which delegates to the sweep —
increments `backup_count` by exactly one, sets `last_backup`, and moves
the status to `synced`; a force run targeted at a single name, however,
leaves the registry untouched. -/
theorem c3_sweep_increments (env : Env) (reg : Registry) (e : String × RepoInfo)
    (h1 : env.project_enabled e.2.name = true)
    (h2 : env.pathExists e.1 = true)
    (h3 : env.has_uncommitted_changes e.1 = true)
    (h4 : env.sync_ok e.1 = true) :
    sweep_entry env e =
      (e.1, { e.2 with last_check := some env.now, last_backup := some env.now,
                       backup_count := e.2.backup_count + 1,
                       status := RepoStatus.synced }) ∧
    sweep_tally env e = { successful := 1 } ∧
    (backup_all_repositories env [e]).1 =
      [(e.1, { e.2 with last_check := some env.now, last_backup := some env.now,
                        backup_count := e.2.backup_count + 1,
                        status := RepoStatus.synced })] ∧
    (backup_all_repositories env [e]).2.1 = { successful := 1 } ∧
    (force_backup env reg none).2.1 = (backup_all_repositories env reg).1 ∧
    (∀ n, (force_backup env reg (some n)).2.1 = reg) := by
  have hres : (backup_repository_single env e.1).1 =
      { success := true, changes_pushed := true, message := "Pushed to GitHub" } := by
    unfold backup_repository_single
    rw [h3, h4]
    rfl
  have hsweep : sweep_entry env e =
      (e.1, { e.2 with last_check := some env.now, last_backup := some env.now,
                       backup_count := e.2.backup_count + 1,
                       status := RepoStatus.synced }) := by
    unfold sweep_entry
    rw [h1, h2, hres]
    rfl
  have htally : sweep_tally env e = { successful := 1 } := by
    unfold sweep_tally
    rw [h1, h2, hres]
    rfl
  refine ⟨hsweep, htally, ?_, ?_, ?_, ?_⟩
  · simp [backup_all_repositories, hsweep]
  · simp [backup_all_repositories, htally]
    rfl
  · unfold force_backup
    rfl
  · intro n
    unfold force_backup
    cases hf : reg.find? (fun x => x.2.name == n) <;> simp [hf]

/-- Witness for the amended C3: `/code/proj` is enabled, exists and has
pending changes; the sweep bumps its count to 1, stamps `last_backup`,
and marks it `synced`, while a by-name force leaves the registry
alone. -/
theorem c3_witness :
    sweep_entry envChanges ("/code/proj", repoProj) =
      ("/code/proj",
       { repoProj with last_check := some envChanges.now,
                       last_backup := some envChanges.now,
                       backup_count := repoProj.backup_count + 1,
                       status := RepoStatus.synced }) ∧
    sweep_tally envChanges ("/code/proj", repoProj) = { successful := 1 } ∧
    (backup_all_repositories envChanges [("/code/proj", repoProj)]).1 =
      [("/code/proj",
        { repoProj with last_check := some envChanges.now,
                        last_backup := some envChanges.now,
                        backup_count := repoProj.backup_count + 1,
                        status := RepoStatus.synced })] ∧
    (backup_all_repositories envChanges [("/code/proj", repoProj)]).2.1 =
      { successful := 1 } ∧
    (force_backup envChanges regProj none).2.1 =
      (backup_all_repositories envChanges regProj).1 ∧
    (∀ n, (force_backup envChanges regProj (some n)).2.1 = regProj) :=
  c3_sweep_increments envChanges regProj ("/code/proj", repoProj)
    (by decide) (by decide) (by decide) (by decide)

/-- C4 (counterexample): a tracked folder that is disabled by operator
preference is skipped by the sweep with its record completely unchanged —
in particular `last_check` is NOT updated: after a pass at time 5 over
the one-entry registry, the record's `last_check` is still `none`. -/
theorem c4_counterexample :
    (backup_all_repositories envDisabled regProj).1 = regProj ∧
    (backup_all_repositories envDisabled regProj).2.1 =
      { successful := 0, failed := 0, skipped := 1 } ∧
    repoProj.last_check = none ∧
    envDisabled.now = 5 := by
  refine ⟨by decide, by decide, rfl, rfl⟩

/-- C4 (amended): a tracked folder whose operator preference is disabled
is skipped by the sweep: no sync is attempted, its record — including its
status AND its `last_check` timestamp — is entirely unchanged, and it is
counted in the pass's skipped tally, not the failed tally. -/
theorem c4_disabled_skipped (env : Env) (e : String × RepoInfo)
    (h : env.project_enabled e.2.name = false) :
    sweep_entry env e = e ∧
    sweep_tally env e = { successful := 0, failed := 0, skipped := 1 } ∧
    sweep_events env e = [] ∧
    (backup_all_repositories env [e]).1 = [e] ∧
    (backup_all_repositories env [e]).2.1 =
      { successful := 0, failed := 0, skipped := 1 } := by
  have hsweep : sweep_entry env e = e := by
    unfold sweep_entry
    rw [h]
    rfl
  have htally : sweep_tally env e = { successful := 0, failed := 0, skipped := 1 } := by
    unfold sweep_tally
    rw [h]
    rfl
  refine ⟨hsweep, htally, ?_, ?_, ?_⟩
  · unfold sweep_events
    rw [h]
    rfl
  · simp [backup_all_repositories, hsweep]
  · simp [backup_all_repositories, htally]
    rfl

/-- Witness for the amended C4: with every project disabled, the pass at
time 5 over the one-entry registry leaves it untouched and tallies one
skip. -/
theorem c4_witness :
    sweep_entry envDisabled ("/code/proj", repoProj) = ("/code/proj", repoProj) ∧
    sweep_tally envDisabled ("/code/proj", repoProj) =
      { successful := 0, failed := 0, skipped := 1 } ∧
    sweep_events envDisabled ("/code/proj", repoProj) = [] ∧
    (backup_all_repositories envDisabled [("/code/proj", repoProj)]).1 =
      [("/code/proj", repoProj)] ∧
    (backup_all_repositories envDisabled [("/code/proj", repoProj)]).2.1 =
      { successful := 0, failed := 0, skipped := 1 } :=
  c4_disabled_skipped envDisabled ("/code/proj", repoProj) (by decide)

/-- C5: on registry load, for a record whose folder exists and whose
commit history is readable (last-commit time `t`, commit count `c`), the
repair pass yields a record whose `backup_count` is the actual count `c`;
a stored `last_backup` later than `t` is replaced by `t`; an absent
`last_backup` is set to `t`; and if the stored count disagreed, the
corrected registry is persisted exactly once. -/
theorem c5_load_repair (env : Env) (reg : Registry) (p : String) (info : RepoInfo)
    (t c : Nat)
    (hmem : (p, info) ∈ reg)
    (hex : env.pathExists p = true)
    (ht : env.last_commit_time p = some t)
    (hc : env.commit_count p = some c) :
    ∃ info' : RepoInfo,
      (p, info') ∈ (migrate_backup_timestamps env reg).1 ∧
      info'.backup_count = c ∧
      (∀ lb, info.last_backup = some lb → t < lb → info'.last_backup = some t) ∧
      (info.last_backup = none → info'.last_backup = some t) ∧
      (info.backup_count ≠ c → (migrate_backup_timestamps env reg).2 = [Ev.saveState]) := by
  have hme : migrate_entry env (p, info) =
      ((p, (migrate_time_fix t (migrate_count_fix (some c) info).1).1),
       (migrate_count_fix (some c) info).2
         || (migrate_time_fix t (migrate_count_fix (some c) info).1).2) := by
    simp [migrate_entry, hex, ht, hc]
  have hcf_count : (migrate_count_fix (some c) info).1.backup_count = c := by
    unfold migrate_count_fix
    by_cases hbc : info.backup_count = c <;> simp [hbc]
  have hcf_lb : (migrate_count_fix (some c) info).1.last_backup = info.last_backup := by
    unfold migrate_count_fix
    by_cases hbc : info.backup_count = c <;> simp [hbc]
  have htf_count : ∀ i : RepoInfo, (migrate_time_fix t i).1.backup_count = i.backup_count := by
    intro i
    unfold migrate_time_fix
    cases hlb : i.last_backup
    · rfl
    · dsimp only
      split <;> rfl
  refine ⟨(migrate_time_fix t (migrate_count_fix (some c) info).1).1, ?_, ?_, ?_, ?_, ?_⟩
  · have hmm := List.mem_map_of_mem (fun e => (migrate_entry env e).1) hmem
    simpa [migrate_backup_timestamps, hme] using hmm
  · rw [htf_count, hcf_count]
  · intro lb hlb hlt
    unfold migrate_time_fix
    rw [hcf_lb, hlb]
    simp [hlt]
  · intro hlb
    unfold migrate_time_fix
    rw [hcf_lb, hlb]
  · intro hbc
    have hflag : (migrate_entry env (p, info)).2 = true := by
      rw [hme]
      unfold migrate_count_fix
      simp [hbc]
    have hany : reg.any (fun e => (migrate_entry env e).2) = true :=
      List.any_eq_true.mpr ⟨(p, info), hmem, hflag⟩
    simp [migrate_backup_timestamps, hany]

/-- Witness for C5: the persisted record for `/code/proj` claims
`backup_count = 5` and `last_backup = 90`, while the real history has 3
commits, the last at time 40; the load repair corrects both and persists
once. -/
theorem c5_witness :
    ∃ info' : RepoInfo,
      ("/code/proj", info') ∈ (migrate_backup_timestamps envHistory regCorrupt).1 ∧
      info'.backup_count = 3 ∧
      (∀ lb, repoCorrupt.last_backup = some lb → 40 < lb → info'.last_backup = some 40) ∧
      (repoCorrupt.last_backup = none → info'.last_backup = some 40) ∧
      (repoCorrupt.backup_count ≠ 3 →
        (migrate_backup_timestamps envHistory regCorrupt).2 = [Ev.saveState]) :=
  c5_load_repair envHistory regCorrupt "/code/proj" repoCorrupt 40 3
    (by decide) (by decide) (by decide) (by decide)

/-- Distributing `&&` over `||`: the shape difference between the
validator's decision and the amended clause (c). -/
theorem or_and_shape (a b c d : Bool) :
    (a || (b && c) || (b && d)) = (a || (b && (c || d))) := by
  cases a <;> cases b <;> cases c <;> cases d <;> rfl

/-- C6 (counterexample): a folder with three plain-text files and nothing
else — no VCS metadata, no project-indicator file, no source file by
extension — satisfies the claim's trackability predicate (its clause (c)
accepts any folder with at least 3 files), but
`FolderWatcher.is_valid_project` rejects it: every disjunct of the code's
decision requires code files once indicators and `.git` are absent. -/
theorem c6_counterexample :
    claimed_trackable defaultRules folderTexts = true ∧
    is_valid_project defaultRules folderTexts = false := by
  refine ⟨by decide, by decide⟩

/-- C6 (amended): a folder is judged trackable if and only if (a) it is
already under version control, or (b) it contains a configured
project-indicator file, or (c) it contains source files by configured
extension AND (its total size meets the configured minimum OR it contains
at least 3 files total) — i.e. the three-file alternative also requires
source files. -/
theorem c6_validator_amended (rules : DetectionRules) (f : Folder) :
    is_valid_project rules f = amended_trackable rules f := by
  unfold is_valid_project amended_trackable
  by_cases hg : entryNamed f ".git" = true
  · simp [hg]
  · simp only [Bool.not_eq_true] at hg
    simp only [hg, Bool.false_eq_true, if_false, Bool.false_or]
    exact or_and_shape _ _ _ _

/-- C7: if authentication cannot be verified for every configured
account, `start` refuses to start entirely: the state (running flag and
registry included) is returned untouched and no action — no initial scan,
no folder watcher, no backup loop — is taken. -/
theorem c7_fail_closed (env : Env) (st : ServiceState)
    (h1 : st.is_running = false)
    (h2 : verify_all_accounts env st.watched_paths = false) :
    start env st = (st, []) := by
  unfold start
  rw [h1, h2]
  by_cases hv : config_validate env st.watched_paths = true
  · rw [hv]
    rfl
  · simp only [Bool.not_eq_true] at hv
    rw [hv]
    rfl

/-- Witness for C7: with no account able to authenticate, starting the
idle service over `/code` changes nothing and schedules nothing. -/
theorem c7_witness :
    verify_all_accounts envNoAuth stIdle.watched_paths = false ∧
    start envNoAuth stIdle = (stIdle, []) :=
  ⟨by decide, c7_fail_closed envNoAuth stIdle rfl (by decide)⟩

/-- If some record carries the requested name, `remove_repository`
reports success. -/
theorem remove_repository_found (reg : Registry) (n : String)
    (e : String × RepoInfo)
    (h : reg.find? (fun x => x.2.name == n) = some e) :
    (remove_repository reg n).1 = true := by
  induction reg with
  | nil => simp [List.find?] at h
  | cons a l ih =>
    by_cases ha : (a.2.name == n) = true
    · simp [remove_repository, ha]
    · simp only [Bool.not_eq_true] at ha
      rw [List.find?] at h
      rw [ha] at h
      simp only [remove_repository, ha, Bool.false_eq_true, if_false]
      exact ih h

/-- C8: deleting a tracked repository attempts and reports each requested
destructive step independently and removes the project from tracking
last, unconditionally: whatever the destructive options and their
outcomes, `tracking_removed` is `true`; and when the requested remote
deletion fails (the account configuration being present), the result
reports `github_deleted = false` together with a non-empty error list —
while `tracking_removed` is still `true`. -/
theorem c8_delete_steps (env : Env) (wps : List PathConfig) (reg : Registry)
    (n : String) (e : String × RepoInfo) (dG dL : Bool)
    (h : reg.find? (fun x => x.2.name == n) = some e) :
    (delete_repository_complete env wps reg n dG dL).1.tracking_removed = true ∧
    (∀ pcA, wps.find? (fun pc => pc.account.username == e.2.account_username) = some pcA →
      env.delete_repository_ok n e.2.account_username = false →
      (delete_repository_complete env wps reg n true dL).1.github_deleted = false ∧
      (delete_repository_complete env wps reg n true dL).1.tracking_removed = true ∧
      (delete_repository_complete env wps reg n true dL).1.errors ≠ []) := by
  have htrk := remove_repository_found reg n e h
  constructor
  · unfold delete_repository_complete
    rw [h]
    dsimp only
    exact htrk
  · intro pcA hpc hko
    unfold delete_repository_complete
    rw [h]
    dsimp only
    rw [hpc]
    simp [hko, htrk]

/-- Witness for C8 (end-to-end scenario 4): deleting `proj` with
`delete_github = true, delete_local = false` while the remote deletion
fails reports `github_deleted = false` with an error entry but
`tracking_removed = true`. -/
theorem c8_witness :
    (delete_repository_complete envDeleteFails [cfgCode] regProj "proj" true false).1.github_deleted = false ∧
    (delete_repository_complete envDeleteFails [cfgCode] regProj "proj" true false).1.tracking_removed = true ∧
    (delete_repository_complete envDeleteFails [cfgCode] regProj "proj" true false).1.errors ≠ [] :=
  (c8_delete_steps envDeleteFails [cfgCode] regProj "proj" ("/code/proj", repoProj)
      true false (by decide)).2 cfgCode (by decide) (by decide)

/-- C9: account resolution returns the first configured watched path
whose root is a (string-)prefix of the resolved folder path — `none`
exactly when no configured root is a prefix — with configuration order as
the tie-break: every earlier entry fails the prefix test. -/
theorem c9_account_routing (w : List PathConfig) (p : String) :
    (get_path_config w p = none ↔ ∀ pc ∈ w, strStartsWith p pc.path = false) ∧
    (∀ pc, get_path_config w p = some pc →
      strStartsWith p pc.path = true ∧
      ∃ i : Nat, ∃ hi : i < w.length,
        w.get ⟨i, hi⟩ = pc ∧
        ∀ pc' ∈ w.take i, strStartsWith p pc'.path = false) := by
  induction w with
  | nil =>
    constructor
    · simp [get_path_config]
    · intro pc hpc
      simp [get_path_config] at hpc
  | cons a l ih =>
    cases ha : strStartsWith p a.path
    · constructor
      · constructor
        · intro h0 pc hpc
          rcases List.mem_cons.mp hpc with rfl | hm
          · exact ha
          · have h0' : get_path_config l p = none := by
              simpa [get_path_config, ha] using h0
            exact ih.1.mp h0' pc hm
        · intro hall
          have h0' : get_path_config l p = none :=
            ih.1.mpr fun pc hm => hall pc (List.mem_cons_of_mem a hm)
          simpa [get_path_config, ha] using h0'
      · intro pc hpc
        have hpc' : get_path_config l p = some pc := by
          simpa [get_path_config, ha] using hpc
        obtain ⟨hs, i, hi, hget, htake⟩ := ih.2 pc hpc'
        refine ⟨hs, i + 1, Nat.succ_lt_succ hi, hget, ?_⟩
        intro pc' hpc'
        rcases List.mem_cons.mp (by simpa [List.take] using hpc') with rfl | hm
        · exact ha
        · exact htake pc' hm
    · constructor
      · constructor
        · intro h0
          simp [get_path_config, ha] at h0
        · intro hall
          exact absurd (hall a (List.mem_cons_self a l)) (by simp [ha])
      · intro pc hpc
        have hpc' : a = pc := by
          simpa [get_path_config, ha] using hpc
        subst hpc'
        exact ⟨ha, 0, Nat.succ_pos _, rfl, by simp⟩

/-- Witness for C9: with the overlapping roots `/code` (alice, first) and
`/code/foo` (bob, second), the path `/code/foo/x` resolves to the first
configured match, `/code`. -/
theorem c9_witness :
    strStartsWith "/code/foo/x" cfgCode.path = true ∧
    ∃ i : Nat, ∃ hi : i < [cfgCode, cfgCodeFoo].length,
      [cfgCode, cfgCodeFoo].get ⟨i, hi⟩ = cfgCode ∧
      ∀ pc' ∈ [cfgCode, cfgCodeFoo].take i,
        strStartsWith "/code/foo/x" pc'.path = false :=
  (c9_account_routing [cfgCode, cfgCodeFoo] "/code/foo/x").2 cfgCode (by decide)

/-- C10: on an untracked path, every record the process-folder primitive
inserts carries `has_remote = true` and status `tracked` or `synced`, and
is appended as the single new entry; on failure the registry is returned
unchanged — no partial record ever appears. -/
theorem c10_no_partial_records (env : Env) (reg : Registry) (pc : PathConfig)
    (b : Bool) (p : String)
    (h : lookupRepo reg p = none) :
    ((process_folder env reg pc b p).1 = true →
      ∃ info : RepoInfo,
        (process_folder env reg pc b p).2.1 = reg ++ [(p, info)] ∧
        info.has_remote = true ∧
        (info.status = RepoStatus.tracked ∨ info.status = RepoStatus.synced)) ∧
    ((process_folder env reg pc b p).1 = false →
      (process_folder env reg pc b p).2.1 = reg) := by
  have hreduce : process_folder env reg pc b p =
      (if env.is_git_repo p then process_existing_git_repo env reg pc b p
       else process_non_git_folder env reg pc p) := by
    unfold process_folder
    rw [h]
    rfl
  rw [hreduce]
  cases hg : env.is_git_repo p
  · rw [if_neg (by simp [hg])]
    unfold process_non_git_folder
    cases hv : env.is_valid_project p
    · rw [if_pos (by simp [hv])]
      exact ⟨fun ht => by simp at ht, fun _ => rfl⟩
    · rw [if_neg (by simp [hv])]
      unfold initialize_new_repository
      cases hi : env.init_repo_ok p
      · rw [if_pos (by simp [hi])]
        exact ⟨fun ht => by simp at ht, fun _ => rfl⟩
      · rw [if_neg (by simp [hi])]
        dsimp only
        cases hcr : env.create_repository_ok p
        · rw [if_neg (by simp [hcr])]
          exact ⟨fun ht => by simp at ht, fun _ => rfl⟩
        · rw [if_pos (by simp [hcr])]
          exact ⟨fun _ => ⟨_, rfl, rfl, Or.inr rfl⟩, fun hf => by simp at hf⟩
  · rw [if_pos (by simp [hg])]
    unfold process_existing_git_repo
    cases hr : env.has_remote p
    · rw [if_neg (by simp [hr])]
      unfold add_remote_to_existing_repo
      dsimp only
      cases hcr : env.create_repository_ok p
      · rw [if_neg (by simp [hcr])]
        exact ⟨fun ht => by simp at ht, fun _ => rfl⟩
      · rw [if_pos (by simp [hcr])]
        exact ⟨fun _ => ⟨_, rfl, rfl, Or.inr rfl⟩, fun hf => by simp at hf⟩
    · rw [if_pos (by simp [hr])]
      exact ⟨fun _ => ⟨_, rfl, rfl, Or.inl rfl⟩, fun hf => by simp at hf⟩

/-- Witness for C10: on the empty registry, processing a new valid
non-git folder `/code/proj` succeeds and appends exactly one record with
a remote and status `synced`. -/
theorem c10_witness :
    ((process_folder envBase [] cfgCode false "/code/proj").1 = true →
      ∃ info : RepoInfo,
        (process_folder envBase [] cfgCode false "/code/proj").2.1 = [] ++ [("/code/proj", info)] ∧
        info.has_remote = true ∧
        (info.status = RepoStatus.tracked ∨ info.status = RepoStatus.synced)) ∧
    ((process_folder envBase [] cfgCode false "/code/proj").1 = false →
      (process_folder envBase [] cfgCode false "/code/proj").2.1 = []) :=
  c10_no_partial_records envBase [] cfgCode false "/code/proj" (by decide)

end CodeBackup
